import Mathlib

/-!
Verification of the gesture classification and stability-locked
scene-ownership controller of the Hand-Gesture repository.

The embedding follows `gesture_controller.py`, `object_manager.py`,
`energy_orb.py` and `main.py`.  Coordinates and times are rationals;
gesture labels (five pairwise-distinct strings in `config.py`) become an
enumerated type; the `time.time()` call inside `update` becomes an
explicit `now` parameter; Python objects that are mutated in place are
rendered as an identity tag paired with their mutable fields.
-/

/-- Gesture labels from `config.py` (five pairwise-distinct strings). -/
inductive GestureLabel where
  | IDLE
  | THREE_FINGERS
  | OPEN_PALM
  | FIST
  | PEACE
deriving DecidableEq

/-- One normalized hand landmark `(x, y, z)`.  The controller reads only
the `x` ([0]) and `y` ([1]) components. -/
structure Landmark where
  x : ℚ
  y : ℚ
  z : ℚ
deriving DecidableEq

/-- Constant `EXTENSION_TOLERANCE = 0.03` in `gesture_controller.py`. -/
def EXTENSION_TOLERANCE : ℚ := 3 / 100

/-- Constant `GESTURE_STABILITY_FRAMES = 6` in `gesture_controller.py`. -/
def GESTURE_STABILITY_FRAMES : ℕ := 6

/-- Constant `SWITCH_COOLDOWN = 0.35` in `gesture_controller.py`. -/
def SWITCH_COOLDOWN : ℚ := 7 / 20

/-- Embedding of `GestureController._y`: `landmarks[idx][1]`.  All call sites are
reached only with 21 or more landmarks, so the indices 0..20 used by the
detector are in bounds; `getD` supplies an irrelevant default. -/
def yAt (lm : List Landmark) (idx : ℕ) : ℚ :=
  (lm.getD idx ⟨0, 0, 0⟩).y

/-- Embedding of `GestureController._x`: `landmarks[idx][0]`. -/
def xAt (lm : List Landmark) (idx : ℕ) : ℚ :=
  (lm.getD idx ⟨0, 0, 0⟩).x

/-- Embedding of `GestureController._thumb_extended`. -/
def thumb_extended (lm : List Landmark) : Bool :=
  let tip_x := xAt lm 4
  let ip_x := xAt lm 3
  let wrist_x := xAt lm 0
  let middle_mcp_x := xAt lm 9
  let hand_side := wrist_x - middle_mcp_x
  let extended : Bool :=
    if 0 ≤ hand_side then decide (ip_x - tip_x > -EXTENSION_TOLERANCE)
    else decide (tip_x - ip_x > -EXTENSION_TOLERANCE)
  let tip_y := yAt lm 4
  let mcp_y := yAt lm 2
  let not_curled_under := decide (tip_y < mcp_y + 12 / 100)
  extended && not_curled_under

/-- Embedding of `GestureController._finger_extended`. -/
def finger_extended (lm : List Landmark) (tip pip mcp : ℕ) : Bool :=
  decide (yAt lm tip < yAt lm pip - EXTENSION_TOLERANCE) &&
    decide (yAt lm tip < yAt lm mcp)

/-- Embedding of `GestureController._finger_closed`; the third index argument is
accepted but unused, exactly as in the source (`0.5` becomes `1/2`). -/
def finger_closed (lm : List Landmark) (tip pip mcp : ℕ) : Bool :=
  decide (yAt lm tip > yAt lm pip - EXTENSION_TOLERANCE * (1 / 2))

/-- Embedding of `GestureController._detect`: rule order OPEN_PALM, THREE_FINGERS,
PEACE, FIST, IDLE. -/
def detect (lm : List Landmark) : GestureLabel :=
  let thumb := thumb_extended lm
  let index := finger_extended lm 8 6 5
  let middle := finger_extended lm 12 10 9
  let ring := finger_extended lm 16 14 13
  let pinky := finger_extended lm 20 18 17
  let index_closed := finger_closed lm 8 6 5
  let middle_closed := finger_closed lm 12 10 9
  let ring_closed := finger_closed lm 16 14 13
  let pinky_closed := finger_closed lm 20 18 17
  if thumb && index && middle && ring && pinky then .OPEN_PALM
  else if index && middle && ring then .THREE_FINGERS
  else if index && middle && ring_closed && pinky_closed then .PEACE
  else if index_closed && middle_closed && ring_closed && pinky_closed then .FIST
  else .IDLE

/-- State of `GestureController` (`__init__`). -/
structure GestureController where
  gesture_hold : GestureLabel
  hold_frames : ℕ
  active_gesture : Option GestureLabel
  last_switch : ℚ
  frame_count : ℕ
deriving DecidableEq

/-- The initial state built by `GestureController.__init__`. -/
def GestureController.init : GestureController :=
  { gesture_hold := .IDLE
    hold_frames := 0
    active_gesture := none
    last_switch := 0
    frame_count := 0 }

/-- Embedding of `GestureController.set_active_gesture`. -/
def GestureController.set_active_gesture (s : GestureController)
    (gesture_name : Option GestureLabel) : GestureController :=
  { s with active_gesture := gesture_name }

/-- Embedding of `GestureController.update(landmarks, width, height, dt)`.  The call to
`time.time()` is the explicit `now` parameter; the returned label is paired
with the post-call state (the Python method mutates `self`). -/
def GestureController.update (s : GestureController) (landmarks : List Landmark)
    (width height dt now : ℚ) : GestureLabel × GestureController :=
  let s1 : GestureController := { s with frame_count := s.frame_count + 1 }
  if landmarks.isEmpty ∨ landmarks.length < 21 then (.IDLE, s1)
  else
    let raw_gesture := detect landmarks
    let s2 : GestureController :=
      if raw_gesture = s1.gesture_hold then { s1 with hold_frames := s1.hold_frames + 1 }
      else { s1 with gesture_hold := raw_gesture, hold_frames := 1 }
    if raw_gesture = .IDLE then (.IDLE, s2)
    else if s2.hold_frames < GESTURE_STABILITY_FRAMES then (.IDLE, s2)
    else if some raw_gesture = s2.active_gesture then (.IDLE, s2)
    else if now - s2.last_switch < SWITCH_COOLDOWN then (.IDLE, s2)
    else (raw_gesture, { s2 with active_gesture := some raw_gesture, last_switch := now })

/-- Running the FSM over a list of ticks, each a landmark list paired with
its wall-clock time; yields the list of emitted labels. -/
def runFSM (width height dt : ℚ) :
    GestureController → List (List Landmark × ℚ) → List GestureLabel
  | _, [] => []
  | s, (lm, t) :: rest =>
      (s.update lm width height dt t).1 ::
        runFSM width height dt (s.update lm width height dt t).2 rest

/-- Label emitted at tick `k` (0-based) of a run; `IDLE` out of range. -/
def outAt (width height dt : ℚ) (s : GestureController)
    (inputs : List (List Landmark × ℚ)) (k : ℕ) : GestureLabel :=
  (runFSM width height dt s inputs).getD k .IDLE

/-- A Python object as seen through a reference: an identity tag (what
`is` compares) together with its mutable fields (what `update` rewrites
in place). -/
structure Obj (A : Type) where
  id : ℕ
  fields : A

/-- State of `ObjectManager` (`__init__`): the single entity slot and the
gesture recorded as owning it. -/
structure ObjectManager (A : Type) where
  current_object : Option (Obj A)
  current_gesture : Option GestureLabel

/-- The empty scene built by `ObjectManager.__init__`. -/
def ObjectManager.init (A : Type) : ObjectManager A :=
  { current_object := none, current_gesture := none }

/-- Embedding of `ObjectManager.spawn(gesture_name, object_class)`: returns the Python
return value paired with the post-call state. -/
def ObjectManager.spawn {A : Type} (s : ObjectManager A) (gesture_name : GestureLabel)
    (object_class : Unit → Obj A) : Bool × ObjectManager A :=
  if some gesture_name = s.current_gesture ∧ s.current_object.isSome then
    (false, s)
  else
    (true, { current_object := some (object_class ()), current_gesture := some gesture_name })

/-- Embedding of `ObjectManager.update(dt)`: advances the active entity via its own
`update` method (here the duck-typed `step`, acting on the entity's
mutable fields and returning the alive-flag), ignoring the returned
alive-flag. -/
def ObjectManager.update {A : Type} (s : ObjectManager A) (dt : ℚ)
    (step : A → ℚ → A × Bool) : ObjectManager A :=
  match s.current_object with
  | none => s
  | some o => { s with current_object := some ⟨o.id, (step o.fields dt).1⟩ }

/-- Embedding of `ObjectManager.draw()`: delegates to the entity's `draw`, which only
submits primitives to the render sink and writes no manager or entity
field; the state is returned unchanged. -/
def ObjectManager.draw {A : Type} (s : ObjectManager A) : ObjectManager A := s

/-- Embedding of `ObjectManager.clear()`. -/
def ObjectManager.clear {A : Type} (s : ObjectManager A) : ObjectManager A :=
  { s with current_object := none, current_gesture := none }

/-- Mutable fields of `EnergyOrb` (`energy_orb.py`); the pre-baked vertex
arrays are draw-only geometry and never change after `__init__`. -/
structure EnergyOrb where
  age : ℚ
  rotation : ℚ
deriving DecidableEq

/-- Embedding of `EnergyOrb.ROT_SPEED = 10.0`. -/
def EnergyOrb.ROT_SPEED : ℚ := 10

/-- Embedding of `EnergyOrb.update(dt)`: advances `age` and `rotation`, returns
`age < 22.0`. -/
def EnergyOrb.update (e : EnergyOrb) (dt : ℚ) : EnergyOrb × Bool :=
  ({ age := e.age + dt, rotation := e.rotation + EnergyOrb.ROT_SPEED * dt },
   decide (e.age + dt < 22))

/-- A fresh `EnergyOrb()` as built by `__init__`, at identity tag `n`. -/
def EnergyOrb.new (n : ℕ) : Obj EnergyOrb := ⟨n, ⟨0, 0⟩⟩

/-- The application state owned by `CinematicUniverse3D.__init__`: the
gesture FSM and the scene controller. -/
structure CinematicUniverse3D (A : Type) where
  gesture_controller : GestureController
  object_manager : ObjectManager A

/-- Fresh application state: both components in their initial states. -/
def CinematicUniverse3D.start (A : Type) : CinematicUniverse3D A :=
  { gesture_controller := GestureController.init, object_manager := ObjectManager.init A }

/-- The `gesture_map` dictionary of `main.py`, parametrized by the four
entity factories (MilkyWay, Nebula, EnergyOrb, Flower constructors). -/
def gesture_map {A : Type} (milky nebula orb flower : Unit → Obj A) :
    GestureLabel → Option (Unit → Obj A)
  | .THREE_FINGERS => some milky
  | .OPEN_PALM => some nebula
  | .FIST => some orb
  | .PEACE => some flower
  | .IDLE => none

/-- Embedding of `CinematicUniverse3D.handle_gestures(dt, landmarks)`: one FSM update
followed by a conditional spawn. -/
def handle_gestures {A : Type} (app : CinematicUniverse3D A)
    (gmap : GestureLabel → Option (Unit → Obj A)) (landmarks : List Landmark)
    (width height dt now : ℚ) : CinematicUniverse3D A :=
  let r := app.gesture_controller.update landmarks width height dt now
  if r.1 = .IDLE then { app with gesture_controller := r.2 }
  else
    match gmap r.1 with
    | none => { app with gesture_controller := r.2 }
    | some obj_class =>
        { gesture_controller := r.2
          object_manager := (app.object_manager.spawn r.1 obj_class).2 }

/-- One iteration of `CinematicUniverse3D.run`: if a frame arrived,
process its landmarks through `handle_gestures`, then advance the scene
animation (`object_manager.update(dt)`).  Rendering does not change
state. -/
def tick {A : Type} (app : CinematicUniverse3D A)
    (gmap : GestureLabel → Option (Unit → Obj A)) (step : A → ℚ → A × Bool)
    (frame_landmarks : Option (List Landmark)) (width height dt now : ℚ) :
    CinematicUniverse3D A :=
  let app1 :=
    match frame_landmarks with
    | some landmarks => handle_gestures app gmap landmarks width height dt now
    | none => app
  { app1 with object_manager := app1.object_manager.update dt step }

/-- The main loop over a list of ticks `(frame landmarks?, dt, now)`. -/
def runApp {A : Type} (gmap : GestureLabel → Option (Unit → Obj A))
    (step : A → ℚ → A × Bool) (width height : ℚ) :
    CinematicUniverse3D A → List (Option (List Landmark) × ℚ × ℚ) → CinematicUniverse3D A
  | app, [] => app
  | app, (fl, dt, t) :: rest =>
      runApp gmap step width height (tick app gmap step fl width height dt t) rest

/-- The scene invariant of the spec: the owning label is `None` exactly
when no entity is active.  (That at most one entity exists is structural:
the manager holds a single `Option` slot, as the source holds a single
`current_object` attribute.) -/
def scene_inv {A : Type} (s : ObjectManager A) : Prop :=
  s.current_gesture = none ↔ s.current_object = none

/-- A concrete open-palm landmark set: 21 points, all five fingers
extended. -/
def lmOpen : List Landmark :=
  [⟨1/2, 6/10, 0⟩,
   ⟨3/10, 55/100, 0⟩, ⟨25/100, 5/10, 0⟩, ⟨1/10, 5/10, 0⟩, ⟨0, 5/10, 0⟩,
   ⟨0, 6/10, 0⟩, ⟨0, 5/10, 0⟩, ⟨0, 3/10, 0⟩, ⟨0, 1/10, 0⟩,
   ⟨4/10, 6/10, 0⟩, ⟨4/10, 5/10, 0⟩, ⟨4/10, 3/10, 0⟩, ⟨4/10, 1/10, 0⟩,
   ⟨0, 6/10, 0⟩, ⟨0, 5/10, 0⟩, ⟨0, 3/10, 0⟩, ⟨0, 1/10, 0⟩,
   ⟨0, 6/10, 0⟩, ⟨0, 5/10, 0⟩, ⟨0, 3/10, 0⟩, ⟨0, 1/10, 0⟩]

/-- A concrete fist landmark set: 21 points, all four non-thumb fingers
strictly closed (tips well below their PIP joints). -/
def lmFist : List Landmark :=
  [⟨1/2, 6/10, 0⟩,
   ⟨3/10, 55/100, 0⟩, ⟨25/100, 5/10, 0⟩, ⟨1/10, 5/10, 0⟩, ⟨0, 5/10, 0⟩,
   ⟨0, 6/10, 0⟩, ⟨0, 5/10, 0⟩, ⟨0, 6/10, 0⟩, ⟨0, 9/10, 0⟩,
   ⟨4/10, 6/10, 0⟩, ⟨4/10, 5/10, 0⟩, ⟨4/10, 6/10, 0⟩, ⟨4/10, 9/10, 0⟩,
   ⟨0, 6/10, 0⟩, ⟨0, 5/10, 0⟩, ⟨0, 6/10, 0⟩, ⟨0, 9/10, 0⟩,
   ⟨0, 6/10, 0⟩, ⟨0, 5/10, 0⟩, ⟨0, 6/10, 0⟩, ⟨0, 9/10, 0⟩]

/-- A 22-point landmark list: `lmOpen` with one extra trailing point. -/
def lm22 : List Landmark := lmOpen ++ [⟨0, 0, 0⟩]

/-- A landmark list whose index finger is in the dead zone: neither
strictly extended nor strictly closed. -/
def lmDead : List Landmark :=
  [⟨0, 6/10, 0⟩, ⟨0, 6/10, 0⟩, ⟨0, 6/10, 0⟩, ⟨0, 6/10, 0⟩, ⟨0, 6/10, 0⟩,
   ⟨0, 6/10, 0⟩, ⟨0, 5/10, 0⟩, ⟨0, 6/10, 0⟩, ⟨0, 48/100, 0⟩]


/-- A list of length 21 is not empty. -/
lemma isEmpty_false_of_len21 {lm : List Landmark} (h : lm.length = 21) :
    lm.isEmpty = false := by
  cases lm with
  | nil => simp at h
  | cons a l => rfl

/-- An invalid frame (fewer than 21 landmarks) emits IDLE and only the
frame counter changes. -/
lemma update_invalid (w h dt now : ℚ) {s : GestureController} {lm : List Landmark}
    (hlen : lm.length < 21) :
    s.update lm w h dt now = (.IDLE, { s with frame_count := s.frame_count + 1 }) := by
  unfold GestureController.update
  simp [hlen]

/-- A valid frame with a fresh non-IDLE raw label resets the hold to 1 and
emits IDLE. -/
lemma update_progress_new (w h dt now : ℚ) {s : GestureController} {lm : List Landmark}
    {L : GestureLabel} (hlen : lm.length = 21) (hdet : detect lm = L)
    (hne : L ≠ s.gesture_hold) (hnI : L ≠ .IDLE) :
    s.update lm w h dt now =
      (.IDLE, { s with gesture_hold := L, hold_frames := 1,
                       frame_count := s.frame_count + 1 }) := by
  unfold GestureController.update
  simp [isEmpty_false_of_len21 hlen, hlen, hdet, hne, hnI, GESTURE_STABILITY_FRAMES]

/-- A valid frame continuing the held non-IDLE label below the stability
threshold increments the hold and emits IDLE. -/
lemma update_progress_cont (w h dt now : ℚ) {s : GestureController} {lm : List Landmark}
    {L : GestureLabel} (hlen : lm.length = 21) (hdet : detect lm = L)
    (hhold : s.gesture_hold = L) (hnI : L ≠ .IDLE)
    (hframes : s.hold_frames + 1 < GESTURE_STABILITY_FRAMES) :
    s.update lm w h dt now =
      (.IDLE, { s with hold_frames := s.hold_frames + 1,
                       frame_count := s.frame_count + 1 }) := by
  unfold GestureController.update
  simp [isEmpty_false_of_len21 hlen, hlen, hdet, hhold, hnI, hframes]

/-- A valid frame continuing the held non-IDLE label at the stability
threshold, with a different active label and the cooldown elapsed, is a
confirmed switch. -/
lemma update_confirm (w h dt now : ℚ) {s : GestureController} {lm : List Landmark}
    {L : GestureLabel} (hlen : lm.length = 21) (hdet : detect lm = L)
    (hhold : s.gesture_hold = L) (hnI : L ≠ .IDLE)
    (hframes : GESTURE_STABILITY_FRAMES ≤ s.hold_frames + 1)
    (hact : some L ≠ s.active_gesture)
    (hcool : SWITCH_COOLDOWN ≤ now - s.last_switch) :
    s.update lm w h dt now =
      (L, { s with hold_frames := s.hold_frames + 1,
                   frame_count := s.frame_count + 1,
                   active_gesture := some L, last_switch := now }) := by
  unfold GestureController.update
  simp [isEmpty_false_of_len21 hlen, hlen, hdet, hhold, hnI, hact,
        not_lt.mpr hframes, not_lt.mpr hcool]

/-- Same as `update_confirm` but with the cooldown not yet elapsed: the
switch is suppressed. -/
lemma update_cooldown_blocked (w h dt now : ℚ) {s : GestureController}
    {lm : List Landmark} {L : GestureLabel} (hlen : lm.length = 21) (hdet : detect lm = L)
    (hhold : s.gesture_hold = L) (hnI : L ≠ .IDLE)
    (hframes : GESTURE_STABILITY_FRAMES ≤ s.hold_frames + 1)
    (hact : some L ≠ s.active_gesture)
    (hcool : now - s.last_switch < SWITCH_COOLDOWN) :
    s.update lm w h dt now =
      (.IDLE, { s with hold_frames := s.hold_frames + 1,
                       frame_count := s.frame_count + 1 }) := by
  unfold GestureController.update
  simp [isEmpty_false_of_len21 hlen, hlen, hdet, hhold, hnI, hact,
        not_lt.mpr hframes, hcool]

/-- A non-IDLE emission happens only with the cooldown elapsed, stamps the
switch time, and records the emitted label as active. -/
lemma update_emit {s : GestureController} {lm : List Landmark} {w h dt now : ℚ}
    (hout : (s.update lm w h dt now).1 ≠ .IDLE) :
    SWITCH_COOLDOWN ≤ now - s.last_switch ∧
    (s.update lm w h dt now).2.last_switch = now ∧
    (s.update lm w h dt now).2.active_gesture = some (s.update lm w h dt now).1 := by
  by_cases hv : lm = [] ∨ lm.length < 21
  · simp [GestureController.update, hv] at hout
  · by_cases hh : detect lm = s.gesture_hold <;>
      (simp [GestureController.update, hv, hh] at hout ⊢;
        split_ifs at hout ⊢ <;> simp_all [not_lt])

/-- An IDLE emission leaves the switch time and the active label
untouched. -/
lemma update_idle_state {s : GestureController} {lm : List Landmark} {w h dt now : ℚ}
    (hout : (s.update lm w h dt now).1 = .IDLE) :
    (s.update lm w h dt now).2.last_switch = s.last_switch ∧
    (s.update lm w h dt now).2.active_gesture = s.active_gesture := by
  by_cases hv : lm = [] ∨ lm.length < 21
  · simp [GestureController.update, hv]
  · by_cases hh : detect lm = s.gesture_hold <;>
      (simp [GestureController.update, hv, hh] at hout ⊢;
        split_ifs at hout ⊢ <;> simp_all)

lemma outAt_nil (w h dt : ℚ) (s : GestureController) (k : ℕ) :
    outAt w h dt s [] k = .IDLE := rfl

lemma outAt_cons_zero (w h dt : ℚ) (s : GestureController) (lm : List Landmark)
    (t : ℚ) (rest : List (List Landmark × ℚ)) :
    outAt w h dt s ((lm, t) :: rest) 0 = (s.update lm w h dt t).1 := rfl

lemma outAt_cons_succ (w h dt : ℚ) (s : GestureController) (lm : List Landmark)
    (t : ℚ) (rest : List (List Landmark × ℚ)) (k : ℕ) :
    outAt w h dt s ((lm, t) :: rest) (k + 1) =
      outAt w h dt (s.update lm w h dt t).2 rest k := rfl

/-- If every tick time of a run is at least `c` and the state starts with
`last_switch ≥ c`, then any tick that emits a non-IDLE label happens at
time at least `c + SWITCH_COOLDOWN`. -/
lemma emit_lower_bound : ∀ (inputs : List (List Landmark × ℚ)) (w h dt : ℚ)
    (s : GestureController) (c : ℚ), c ≤ s.last_switch →
    (∀ k, k < inputs.length → c ≤ (inputs.getD k ([], 0)).2) →
    ∀ j, outAt w h dt s inputs j ≠ .IDLE →
      c + SWITCH_COOLDOWN ≤ (inputs.getD j ([], 0)).2
  | [], _, _, _, _, _, _, _, _, hj => absurd rfl hj
  | (lm, t) :: rest, w, h, dt, s, c, hc, htime, 0, hj => by
      rw [outAt_cons_zero] at hj
      have hfacts := update_emit hj
      have hgoal : c + SWITCH_COOLDOWN ≤ t := by linarith [hfacts.1]
      simpa using hgoal
  | (lm, t) :: rest, w, h, dt, s, c, hc, htime, (j + 1), hj => by
      rw [outAt_cons_succ] at hj
      have hc' : c ≤ ((s.update lm w h dt t).2).last_switch := by
        by_cases hI : (s.update lm w h dt t).1 = .IDLE
        · rw [(update_idle_state hI).1]; exact hc
        · rw [(update_emit hI).2.1]
          simpa using htime 0 (by simp)
      have htime' : ∀ k, k < rest.length → c ≤ (rest.getD k ([], 0)).2 := by
        intro k hk
        simpa using htime (k + 1) (by simpa using Nat.succ_lt_succ hk)
      simpa using emit_lower_bound rest w h dt (s.update lm w h dt t).2 c hc' htime' j hj

/-- Two non-IDLE emissions of one run, with nondecreasing tick times, are
at least `SWITCH_COOLDOWN` apart. -/
lemma cooldown_gap : ∀ (inputs : List (List Landmark × ℚ)) (w h dt : ℚ)
    (s : GestureController) (i j : ℕ), i < j → j < inputs.length →
    (∀ a b : ℕ, a ≤ b → b < inputs.length →
      (inputs.getD a ([], 0)).2 ≤ (inputs.getD b ([], 0)).2) →
    outAt w h dt s inputs i ≠ .IDLE → outAt w h dt s inputs j ≠ .IDLE →
    (inputs.getD i ([], 0)).2 + SWITCH_COOLDOWN ≤ (inputs.getD j ([], 0)).2
  | _, _, _, _, _, i, 0, hij, _, _, _, _ => absurd hij (Nat.not_lt_zero i)
  | [], _, _, _, _, _, (j + 1), _, hjlen, _, _, _ => by simp at hjlen
  | (lm, t) :: rest, w, h, dt, s, 0, (j + 1), hij, hjlen, hmono, hi, hj => by
      rw [outAt_cons_zero] at hi
      rw [outAt_cons_succ] at hj
      have hlast : t ≤ ((s.update lm w h dt t).2).last_switch :=
        le_of_eq (update_emit hi).2.1.symm
      have htime' : ∀ k, k < rest.length → t ≤ (rest.getD k ([], 0)).2 := by
        intro k hk
        simpa using hmono 0 (k + 1) (Nat.zero_le _) (by simpa using Nat.succ_lt_succ hk)
      simpa using emit_lower_bound rest w h dt (s.update lm w h dt t).2 t hlast htime' j hj
  | (lm, t) :: rest, w, h, dt, s, (i + 1), (j + 1), hij, hjlen, hmono, hi, hj => by
      rw [outAt_cons_succ] at hi hj
      have hmono' : ∀ a b : ℕ, a ≤ b → b < rest.length →
          (rest.getD a ([], 0)).2 ≤ (rest.getD b ([], 0)).2 := by
        intro a b hab hb
        simpa using hmono (a + 1) (b + 1) (Nat.succ_le_succ hab)
          (by simpa using Nat.succ_lt_succ hb)
      simpa using cooldown_gap rest w h dt (s.update lm w h dt t).2 i j
        (Nat.lt_of_succ_lt_succ hij) (by simpa using Nat.lt_of_succ_lt_succ hjlen)
        hmono' hi hj

/-- After any `spawn(g, f)` call the recorded owning gesture is `g`. -/
lemma spawn_gesture {A : Type} (s : ObjectManager A) (g : GestureLabel)
    (f : Unit → Obj A) : (s.spawn g f).2.current_gesture = some g := by
  unfold ObjectManager.spawn
  split_ifs with h1
  · exact h1.1.symm
  · rfl

/-- `ObjectManager.update` never changes the owning gesture. -/
lemma managerUpdate_gesture {A : Type} (s : ObjectManager A) (dt : ℚ)
    (step : A → ℚ → A × Bool) : (s.update dt step).current_gesture = s.current_gesture := by
  cases h : s.current_object <;> simp [ObjectManager.update, h]

/-- One main-loop tick preserves agreement between the FSM active label
and the scene owning label. -/
lemma tick_sync {A : Type} (milky nebula orb flower : Unit → Obj A)
    (step : A → ℚ → A × Bool) (fl : Option (List Landmark)) (w h dt now : ℚ)
    (app : CinematicUniverse3D A)
    (hinv : app.gesture_controller.active_gesture = app.object_manager.current_gesture) :
    (tick app (gesture_map milky nebula orb flower) step fl w h dt now).gesture_controller.active_gesture =
      (tick app (gesture_map milky nebula orb flower) step fl w h dt now).object_manager.current_gesture := by
  rcases fl with _ | lms
  · simpa [tick, managerUpdate_gesture] using hinv
  · simp only [tick]
    by_cases hI : (app.gesture_controller.update lms w h dt now).1 = .IDLE
    · simp [handle_gestures, hI, managerUpdate_gesture, (update_idle_state hI).2, hinv]
    · have hact := (update_emit hI).2.2
      rcases hg : (app.gesture_controller.update lms w h dt now).1 with _ | _ | _ | _ | _
      · exact absurd hg hI
      all_goals
        simp [handle_gestures, hg, gesture_map, managerUpdate_gesture, spawn_gesture,
          hg ▸ hact]

/-- The whole main loop preserves agreement between the FSM active label
and the scene owning label. -/
lemma runApp_sync {A : Type} (milky nebula orb flower : Unit → Obj A)
    (step : A → ℚ → A × Bool) (w h : ℚ) :
    ∀ (inputs : List (Option (List Landmark) × ℚ × ℚ)) (app : CinematicUniverse3D A),
      app.gesture_controller.active_gesture = app.object_manager.current_gesture →
      (runApp (gesture_map milky nebula orb flower) step w h app inputs).gesture_controller.active_gesture =
        (runApp (gesture_map milky nebula orb flower) step w h app inputs).object_manager.current_gesture
  | [], _, hinv => hinv
  | (fl, dt, t) :: rest, app, hinv =>
      runApp_sync milky nebula orb flower step w h rest _
        (tick_sync milky nebula orb flower step fl w h dt t app hinv)

/-- C3 (amended): a frame with fewer than 21 landmarks (the empty frame
included) emits IDLE and leaves hold label, hold count, active label and
switch time unchanged. -/
theorem short_frame_ignored (s : GestureController) (lm : List Landmark)
    (w h dt now : ℚ) (hlen : lm.length < 21) :
    (s.update lm w h dt now).1 = .IDLE ∧
    (s.update lm w h dt now).2.gesture_hold = s.gesture_hold ∧
    (s.update lm w h dt now).2.hold_frames = s.hold_frames ∧
    (s.update lm w h dt now).2.active_gesture = s.active_gesture ∧
    (s.update lm w h dt now).2.last_switch = s.last_switch := by
  rw [update_invalid w h dt now hlen]
  exact ⟨rfl, rfl, rfl, rfl, rfl⟩

/-- C4: while `active_gesture = L`, any tick whose raw classification is
`L` returns IDLE, whatever the hold count, time, or frame validity. -/
theorem active_label_never_reemitted (s : GestureController) (lm : List Landmark)
    (w h dt now : ℚ) (L : GestureLabel)
    (hact : s.active_gesture = some L) (hdet : detect lm = L) :
    (s.update lm w h dt now).1 = .IDLE := by
  by_cases hv : lm = [] ∨ lm.length < 21
  · simp [GestureController.update, hv]
  · by_cases hh : detect lm = s.gesture_hold
    · have hgh : s.gesture_hold = L := hh.symm.trans hdet
      simp [GestureController.update, hv, hh, hdet, hgh, hact, GESTURE_STABILITY_FRAMES]
    · rw [hdet] at hh
      simp [GestureController.update, hv, hdet, hh, hact, GESTURE_STABILITY_FRAMES,
        apply_ite]

/-- C5: a frame with all five fingers extended classifies as OPEN_PALM
(and in particular never as THREE_FINGERS), by rule order. -/
theorem open_palm_priority (lm : List Landmark)
    (hth : thumb_extended lm = true) (hin : finger_extended lm 8 6 5 = true)
    (hmi : finger_extended lm 12 10 9 = true) (hri : finger_extended lm 16 14 13 = true)
    (hpi : finger_extended lm 20 18 17 = true) :
    detect lm = .OPEN_PALM ∧ detect lm ≠ .THREE_FINGERS := by
  have hop : detect lm = .OPEN_PALM := by simp [detect, hth, hin, hmi, hri, hpi]
  exact ⟨hop, by simp [hop]⟩

/-- C9: semantics of the per-finger extended/closed predicates: extended
means tip above PIP by the tolerance and above MCP; closed means tip below
PIP minus half the tolerance; no finger is both, and some finger values
are neither (dead zone). -/
theorem finger_extended_closed_semantics :
    (∀ (lm : List Landmark) (tip pip mcp : ℕ),
      (finger_extended lm tip pip mcp = true ↔
        (yAt lm tip < yAt lm pip - EXTENSION_TOLERANCE ∧ yAt lm tip < yAt lm mcp)) ∧
      (finger_closed lm tip pip mcp = true ↔
        yAt lm pip - EXTENSION_TOLERANCE / 2 < yAt lm tip) ∧
      ¬(finger_extended lm tip pip mcp = true ∧ finger_closed lm tip pip mcp = true)) ∧
    (∃ lm : List Landmark,
      finger_extended lm 8 6 5 = false ∧ finger_closed lm 8 6 5 = false) := by
  have hpos : (0 : ℚ) < EXTENSION_TOLERANCE := by norm_num [EXTENSION_TOLERANCE]
  constructor
  · intro lm tip pip mcp
    refine ⟨by simp [finger_extended], ?_, ?_⟩
    · simp only [finger_closed, gt_iff_lt, decide_eq_true_eq]
      constructor <;> intro <;> linarith
    · rintro ⟨he, hc⟩
      simp [finger_extended] at he
      simp [finger_closed] at hc
      linarith [he.1, hc]
  · refine ⟨lmDead, ?_, ?_⟩
    · norm_num [finger_extended, yAt, lmDead, EXTENSION_TOLERANCE]
    · norm_num [finger_closed, yAt, lmDead, EXTENSION_TOLERANCE]

/-- C6: `spawn` replaces exactly when the label differs from the owning
label or no entity is active, reports the replacement, and a second
same-label call is a no-op returning `false`. -/
theorem spawn_replacement_contract (A : Type) (s : ObjectManager A)
    (g : GestureLabel) (f : Unit → Obj A) :
    ((s.spawn g f).1 = true ↔ (some g ≠ s.current_gesture ∨ s.current_object = none)) ∧
    ((s.spawn g f).1 = true → (s.spawn g f).2 = ⟨some (f ()), some g⟩) ∧
    ((s.spawn g f).1 = false → (s.spawn g f).2 = s) ∧
    (s.spawn g f).2.spawn g f = (false, (s.spawn g f).2) := by
  by_cases hc : some g = s.current_gesture ∧ s.current_object.isSome
  · have h1 : s.spawn g f = (false, s) := by simp [ObjectManager.spawn, hc]
    rw [h1]
    refine ⟨?_, ?_, fun _ => rfl, ?_⟩
    · constructor
      · intro habs; simp at habs
      · rintro (hne | hnone)
        · exact absurd hc.1.symm (Ne.symm hne)
        · rw [hnone] at hc; simp at hc
    · intro habs; simp at habs
    · simp [ObjectManager.spawn, hc]
  · have h1 : s.spawn g f = (true, ⟨some (f ()), some g⟩) := by simp [ObjectManager.spawn, hc]
    rw [h1]
    refine ⟨?_, fun _ => rfl, ?_, ?_⟩
    · constructor
      · intro _
        rcases not_and_or.mp hc with hne | hobj
        · exact Or.inl (Ne.symm (Ne.symm hne))
        · exact Or.inr (Option.not_isSome_iff_eq_none.mp hobj)
      · intro _; rfl
    · intro habs; simp at habs
    · simp [ObjectManager.spawn]

/-- C7: `update(dt)` and `draw()` keep the entity slot identity and the
owning gesture; `update` advances the entity fields through the entity's
own step function, ignores the alive-flag, and never drops the entity. -/
theorem scene_update_preserves_entity (A : Type) (s : ObjectManager A) (dt : ℚ)
    (step : A → ℚ → A × Bool) :
    (s.update dt step).current_gesture = s.current_gesture ∧
    (s.update dt step).current_object.map Obj.id = s.current_object.map Obj.id ∧
    (∀ o : Obj A, s.current_object = some o →
      (s.update dt step).current_object = some ⟨o.id, (step o.fields dt).1⟩) ∧
    (∀ step2 : A → ℚ → A × Bool, (∀ a d, (step a d).1 = (step2 a d).1) →
      s.update dt step = s.update dt step2) ∧
    s.draw = s := by
  refine ⟨managerUpdate_gesture s dt step, ?_, ?_, ?_, rfl⟩
  · cases h : s.current_object <;> simp [ObjectManager.update, h]
  · intro o ho; simp [ObjectManager.update, ho]
  · intro step2 hagree
    cases h : s.current_object <;> simp [ObjectManager.update, h, hagree]

/-- C8: starting from the empty scene, every operation preserves the
invariant that the owning label is `None` exactly when no entity is
active (at most one entity existing is structural: a single slot). -/
theorem scene_invariants_preserved (A : Type) :
    scene_inv (ObjectManager.init A) ∧
    (∀ (s : ObjectManager A) (g : GestureLabel) (f : Unit → Obj A),
      scene_inv s → scene_inv (s.spawn g f).2) ∧
    (∀ (s : ObjectManager A) (dt : ℚ) (step : A → ℚ → A × Bool),
      scene_inv s → scene_inv (s.update dt step)) ∧
    (∀ s : ObjectManager A, scene_inv s → scene_inv s.draw) ∧
    (∀ s : ObjectManager A, scene_inv s.clear) := by
  refine ⟨by simp [scene_inv, ObjectManager.init], ?_, ?_, fun s hs => hs,
    fun s => by simp [scene_inv, ObjectManager.clear]⟩
  · intro s g f hs
    unfold ObjectManager.spawn
    split_ifs with hc
    · exact hs
    · simp [scene_inv]
  · intro s dt step hs
    cases h : s.current_object with
    | none => simpa [ObjectManager.update, h] using hs
    | some o =>
        simp [scene_inv, ObjectManager.update, h] at hs ⊢
        exact hs

/-- C10: with the concrete four-entry gesture map of `main.py`, the FSM
active label and the scene owning label agree initially and after every
main-loop tick. -/
theorem fsm_scene_label_sync :
    (∀ A : Type, (CinematicUniverse3D.start A).gesture_controller.active_gesture =
      (CinematicUniverse3D.start A).object_manager.current_gesture) ∧
    (∀ (A : Type) (milky nebula orb flower : Unit → Obj A) (step : A → ℚ → A × Bool)
      (w h : ℚ) (app : CinematicUniverse3D A)
      (inputs : List (Option (List Landmark) × ℚ × ℚ)),
      app.gesture_controller.active_gesture = app.object_manager.current_gesture →
      (runApp (gesture_map milky nebula orb flower) step w h app inputs).gesture_controller.active_gesture =
        (runApp (gesture_map milky nebula orb flower) step w h app inputs).object_manager.current_gesture) :=
  ⟨fun _ => rfl,
   fun _ m n o f step w h app inputs hinv => runApp_sync m n o f step w h inputs app hinv⟩

/-- C1: from the initial state, six consecutive valid frames classifying
to the same non-IDLE label `L` emit IDLE on ticks 1-5 and `L` on tick 6
(the tick-6 wall-clock time being at least the cooldown, as epoch time
always is, since `last_switch` starts at 0); five such frames emit IDLE
throughout. -/
theorem debounce_confirmation
    (lm1 lm2 lm3 lm4 lm5 lm6 : List Landmark) (w h dt t1 t2 t3 t4 t5 t6 : ℚ)
    (L : GestureLabel)
    (h1 : lm1.length = 21) (h2 : lm2.length = 21) (h3 : lm3.length = 21)
    (h4 : lm4.length = 21) (h5 : lm5.length = 21) (h6 : lm6.length = 21)
    (hd1 : detect lm1 = L) (hd2 : detect lm2 = L) (hd3 : detect lm3 = L)
    (hd4 : detect lm4 = L) (hd5 : detect lm5 = L) (hd6 : detect lm6 = L)
    (hnI : L ≠ .IDLE) (ht : SWITCH_COOLDOWN ≤ t6) :
    runFSM w h dt GestureController.init
        [(lm1, t1), (lm2, t2), (lm3, t3), (lm4, t4), (lm5, t5), (lm6, t6)] =
      [.IDLE, .IDLE, .IDLE, .IDLE, .IDLE, L] ∧
    runFSM w h dt GestureController.init
        [(lm1, t1), (lm2, t2), (lm3, t3), (lm4, t4), (lm5, t5)] =
      [.IDLE, .IDLE, .IDLE, .IDLE, .IDLE] := by
  have hne1 : L ≠ GestureController.init.gesture_hold := by
    simpa [GestureController.init] using hnI
  have e1 : GestureController.init.update lm1 w h dt t1 = (.IDLE, ⟨L, 1, none, 0, 1⟩) :=
    update_progress_new w h dt t1 h1 hd1 hne1 hnI
  have e2 : (⟨L, 1, none, 0, 1⟩ : GestureController).update lm2 w h dt t2 =
      (.IDLE, ⟨L, 2, none, 0, 2⟩) :=
    update_progress_cont w h dt t2 h2 hd2 rfl hnI (by simp [GESTURE_STABILITY_FRAMES])
  have e3 : (⟨L, 2, none, 0, 2⟩ : GestureController).update lm3 w h dt t3 =
      (.IDLE, ⟨L, 3, none, 0, 3⟩) :=
    update_progress_cont w h dt t3 h3 hd3 rfl hnI (by simp [GESTURE_STABILITY_FRAMES])
  have e4 : (⟨L, 3, none, 0, 3⟩ : GestureController).update lm4 w h dt t4 =
      (.IDLE, ⟨L, 4, none, 0, 4⟩) :=
    update_progress_cont w h dt t4 h4 hd4 rfl hnI (by simp [GESTURE_STABILITY_FRAMES])
  have e5 : (⟨L, 4, none, 0, 4⟩ : GestureController).update lm5 w h dt t5 =
      (.IDLE, ⟨L, 5, none, 0, 5⟩) :=
    update_progress_cont w h dt t5 h5 hd5 rfl hnI (by simp [GESTURE_STABILITY_FRAMES])
  have e6 : (⟨L, 5, none, 0, 5⟩ : GestureController).update lm6 w h dt t6 =
      (L, ⟨L, 6, some L, t6, 6⟩) :=
    update_confirm w h dt t6 h6 hd6 rfl hnI (by simp [GESTURE_STABILITY_FRAMES]) (by simp)
      (by simpa using ht)
  exact ⟨by simp [runFSM, e1, e2, e3, e4, e5, e6],
         by simp [runFSM, e1, e2, e3, e4, e5]⟩

/-- C2: from any state carrying a fully stabilized distinct non-IDLE
label, an update `Δ` after the recorded switch time emits IDLE when
`Δ < SWITCH_COOLDOWN` and the label itself when `Δ ≥ SWITCH_COOLDOWN`;
and in any run with nondecreasing tick times, two non-IDLE emissions are
at least `SWITCH_COOLDOWN` apart in wall-clock time. -/
theorem cooldown_suppression_and_min_gap :
    (∀ (s : GestureController) (lm : List Landmark) (w h dt Δ : ℚ) (L2 : GestureLabel),
      lm.length = 21 → detect lm = L2 → L2 ≠ .IDLE → s.gesture_hold = L2 →
      GESTURE_STABILITY_FRAMES ≤ s.hold_frames → some L2 ≠ s.active_gesture →
      ((Δ < SWITCH_COOLDOWN → (s.update lm w h dt (s.last_switch + Δ)).1 = .IDLE) ∧
       (SWITCH_COOLDOWN ≤ Δ → (s.update lm w h dt (s.last_switch + Δ)).1 = L2))) ∧
    (∀ (w h dt : ℚ) (s : GestureController) (inputs : List (List Landmark × ℚ)) (i j : ℕ),
      i < j → j < inputs.length →
      (∀ a b : ℕ, a ≤ b → b < inputs.length →
        (inputs.getD a ([], 0)).2 ≤ (inputs.getD b ([], 0)).2) →
      outAt w h dt s inputs i ≠ .IDLE → outAt w h dt s inputs j ≠ .IDLE →
      (inputs.getD i ([], 0)).2 + SWITCH_COOLDOWN ≤ (inputs.getD j ([], 0)).2) := by
  constructor
  · intro s lm w h dt Δ L2 hlen hdet hnI hhold hfr hact
    constructor
    · intro hΔ
      rw [update_cooldown_blocked w h dt (s.last_switch + Δ) hlen hdet hhold hnI
        (hfr.trans (Nat.le_succ _)) hact (by simpa using hΔ)]
    · intro hΔ
      rw [update_confirm w h dt (s.last_switch + Δ) hlen hdet hhold hnI
        (hfr.trans (Nat.le_succ _)) hact (by simpa using hΔ)]
  · intro w h dt s inputs i j hij hjlen hmono hi hj
    exact cooldown_gap inputs w h dt s i j hij hjlen hmono hi hj

section RatEval
/- Batteries marks the rational-number field operations irreducible; the
concrete evaluations below need them to reduce. -/
attribute [local semireducible] Rat.sub Rat.add Rat.mul Rat.inv

/-- C1 witness: a concrete six-tick open-palm run from the initial
state. -/
theorem debounce_confirmation_witness :
    runFSM 0 0 0 GestureController.init
        [(lmOpen, 1), (lmOpen, 1), (lmOpen, 1), (lmOpen, 1), (lmOpen, 1), (lmOpen, 1)] =
      [.IDLE, .IDLE, .IDLE, .IDLE, .IDLE, .OPEN_PALM] ∧
    runFSM 0 0 0 GestureController.init
        [(lmOpen, 1), (lmOpen, 1), (lmOpen, 1), (lmOpen, 1), (lmOpen, 1)] =
      [.IDLE, .IDLE, .IDLE, .IDLE, .IDLE] :=
  debounce_confirmation lmOpen lmOpen lmOpen lmOpen lmOpen lmOpen 0 0 0 1 1 1 1 1 1
    .OPEN_PALM (by decide) (by decide) (by decide) (by decide) (by decide) (by decide)
    (by decide) (by decide) (by decide) (by decide) (by decide) (by decide)
    (by decide) (by decide)

/-- C2 witness: from a state that just switched to OPEN_PALM at time 1
with a stabilized FIST, an update 0.1s later is suppressed and one 0.5s
later confirms FIST. -/
theorem cooldown_suppression_witness :
    ((⟨.FIST, 6, some .OPEN_PALM, 1, 10⟩ : GestureController).update lmFist 0 0 0
        (1 + 1/10)).1 = .IDLE ∧
    ((⟨.FIST, 6, some .OPEN_PALM, 1, 10⟩ : GestureController).update lmFist 0 0 0
        (1 + 1/2)).1 = .FIST :=
  ⟨(cooldown_suppression_and_min_gap.1 ⟨.FIST, 6, some .OPEN_PALM, 1, 10⟩ lmFist 0 0 0
      (1/10) .FIST (by decide) (by decide) (by decide) rfl (by decide) (by decide)).1
      (by decide),
   (cooldown_suppression_and_min_gap.1 ⟨.FIST, 6, some .OPEN_PALM, 1, 10⟩ lmFist 0 0 0
      (1/2) .FIST (by decide) (by decide) (by decide) rfl (by decide) (by decide)).2
      (by decide)⟩

/-- C3 counterexample: a 22-point landmark list is NOT treated as "no
hand": it can produce a non-IDLE emission and it does change the hold
counter. -/
theorem length22_not_rejected_cex :
    lm22.length ≠ 21 ∧
    ((⟨.OPEN_PALM, 5, none, 0, 5⟩ : GestureController).update lm22 0 0 0 1).1 ≠ .IDLE ∧
    (GestureController.init.update lm22 0 0 0 0).2.hold_frames ≠
      GestureController.init.hold_frames :=
  ⟨by decide, by decide, by decide⟩

/-- C3 witness: the empty frame from the initial state. -/
theorem short_frame_ignored_witness :
    (GestureController.init.update [] 0 0 0 0).1 = .IDLE ∧
    (GestureController.init.update [] 0 0 0 0).2.gesture_hold =
      GestureController.init.gesture_hold ∧
    (GestureController.init.update [] 0 0 0 0).2.hold_frames =
      GestureController.init.hold_frames ∧
    (GestureController.init.update [] 0 0 0 0).2.active_gesture =
      GestureController.init.active_gesture ∧
    (GestureController.init.update [] 0 0 0 0).2.last_switch =
      GestureController.init.last_switch :=
  short_frame_ignored GestureController.init [] 0 0 0 0 (by decide)

/-- C4 witness: with OPEN_PALM active, a further stable OPEN_PALM frame
(hold count far past the threshold) emits IDLE. -/
theorem active_label_never_reemitted_witness :
    ((⟨.OPEN_PALM, 9, some .OPEN_PALM, 1, 9⟩ : GestureController).update lmOpen
        0 0 0 2).1 = .IDLE :=
  active_label_never_reemitted ⟨.OPEN_PALM, 9, some .OPEN_PALM, 1, 9⟩ lmOpen 0 0 0 2
    .OPEN_PALM rfl (by decide)

/-- C5 witness: the concrete all-extended hand. -/
theorem open_palm_priority_witness :
    detect lmOpen = .OPEN_PALM ∧ detect lmOpen ≠ .THREE_FINGERS :=
  open_palm_priority lmOpen (by decide) (by decide) (by decide) (by decide) (by decide)

/-- C6 witness: spawning FIST on the empty scene replaces; the repeated
call is a no-op returning false. -/
theorem spawn_replacement_contract_witness :
    ((ObjectManager.init EnergyOrb).spawn .FIST (fun _ => EnergyOrb.new 0)).1 = true ∧
    ((ObjectManager.init EnergyOrb).spawn .FIST (fun _ => EnergyOrb.new 0)).2.spawn .FIST
        (fun _ => EnergyOrb.new 0) =
      (false, ((ObjectManager.init EnergyOrb).spawn .FIST (fun _ => EnergyOrb.new 0)).2) :=
  ⟨(spawn_replacement_contract EnergyOrb (ObjectManager.init EnergyOrb) .FIST
      (fun _ => EnergyOrb.new 0)).1.mpr (Or.inr rfl),
   (spawn_replacement_contract EnergyOrb (ObjectManager.init EnergyOrb) .FIST
      (fun _ => EnergyOrb.new 0)).2.2.2⟩

/-- C7 witness: animating a live EnergyOrb scene for half a second keeps
the owning gesture and the entity identity. -/
theorem scene_update_preserves_entity_witness :
    ((⟨some (EnergyOrb.new 3), some .FIST⟩ : ObjectManager EnergyOrb).update (1/2)
        EnergyOrb.update).current_gesture = some .FIST ∧
    ((⟨some (EnergyOrb.new 3), some .FIST⟩ : ObjectManager EnergyOrb).update (1/2)
        EnergyOrb.update).current_object.map Obj.id = some 3 := by
  have hthm := scene_update_preserves_entity EnergyOrb
    ⟨some (EnergyOrb.new 3), some .FIST⟩ (1/2) EnergyOrb.update
  exact ⟨hthm.1, hthm.2.1⟩

/-- C8 witness: the invariant after spawning PEACE on the empty scene. -/
theorem scene_invariants_preserved_witness :
    scene_inv ((ObjectManager.init EnergyOrb).spawn .PEACE (fun _ => EnergyOrb.new 1)).2 :=
  (scene_invariants_preserved EnergyOrb).2.1 (ObjectManager.init EnergyOrb) .PEACE
    (fun _ => EnergyOrb.new 1) (by simp [scene_inv, ObjectManager.init])

/-- C9 witness: the concrete open-palm index finger is extended, hence
not simultaneously closed. -/
theorem finger_extended_closed_semantics_witness :
    finger_extended lmOpen 8 6 5 = true ∧
    ¬(finger_extended lmOpen 8 6 5 = true ∧ finger_closed lmOpen 8 6 5 = true) :=
  ⟨by decide, (finger_extended_closed_semantics.1 lmOpen 8 6 5).2.2⟩

/-- C10 witness: a two-tick concrete run (an open palm frame, then a
dropped frame) keeps the two labels equal. -/
theorem fsm_scene_label_sync_witness :
    (runApp (gesture_map (fun _ => EnergyOrb.new 0) (fun _ => EnergyOrb.new 1)
        (fun _ => EnergyOrb.new 2) (fun _ => EnergyOrb.new 3)) EnergyOrb.update 0 0
      (CinematicUniverse3D.start EnergyOrb)
      [(some lmOpen, 1/60, 1), (none, 1/60, 2)]).gesture_controller.active_gesture =
    (runApp (gesture_map (fun _ => EnergyOrb.new 0) (fun _ => EnergyOrb.new 1)
        (fun _ => EnergyOrb.new 2) (fun _ => EnergyOrb.new 3)) EnergyOrb.update 0 0
      (CinematicUniverse3D.start EnergyOrb)
      [(some lmOpen, 1/60, 1), (none, 1/60, 2)]).object_manager.current_gesture :=
  fsm_scene_label_sync.2 EnergyOrb (fun _ => EnergyOrb.new 0) (fun _ => EnergyOrb.new 1)
    (fun _ => EnergyOrb.new 2) (fun _ => EnergyOrb.new 3) EnergyOrb.update 0 0
    (CinematicUniverse3D.start EnergyOrb) [(some lmOpen, 1/60, 1), (none, 1/60, 2)] rfl

end RatEval
